import Mathlib

/-!
# Asynchronous greeter clients: latency measurement

A shallow embedding of the two client programs

* `src/cpp/helloworld/greeter_async_client.cc`  (one call at a time, bounded run)
* `src/cpp/helloworld/greeter_async_client3.cc` (fire-and-forget issuing, background drain loop)

The gRPC runtime, the remote server, the heap allocator and the system clock are
the environment.  They are explicit arguments of the embedded functions:

* what `CompletionQueue::Next` hands back (its return value, the tag, the `ok` flag)
  together with what the runtime stored through `Finish(&reply, &status, tag)`;
* the readings of `clock_gettime(CLOCK_REALTIME, _)`, one per call, in call order;
* the address `new AsyncClientCall` hands out.

Machine integers are `Int`; arithmetic on `int64_t` / `long` / `time_t` wraps to
64 bits (`wrap64`), arithmetic on `int` wraps to 32 bits (`wrap32`).
-/

namespace Greeter

/-! ## Machine integers -/

/-- Two's-complement reading of an integer in 64 bits. -/
def wrap64 (x : Int) : Int := (x + 2 ^ 63) % 2 ^ 64 - 2 ^ 63

/-- Two's-complement reading of an integer in 32 bits. -/
def wrap32 (x : Int) : Int := (x + 2 ^ 31) % 2 ^ 32 - 2 ^ 31

/-- The C++ `a - b` on 64-bit signed operands. -/
def sub64 (a b : Int) : Int := wrap64 (a - b)

/-- The C++ `number++` on an `int64_t`. -/
def inc64 (a : Int) : Int := wrap64 (a + 1)

/-- The C++ `number++` on an `int`. -/
def inc32 (a : Int) : Int := wrap32 (a + 1)

/-! ## Messages, clock readings, log lines -/

/-- Modelled from the spec: the request message of the remote call (the generated
header `helloworld.grpc.pb.h` is not part of the sources); it carries the fields
set by `set_number` and `set_time_start`. -/
structure HelloRequest where
  number : Int
  time_start : Int
deriving DecidableEq, Repr

/-- Modelled from the spec: the reply message of the remote call (the generated
header `helloworld.grpc.pb.h` is not part of the sources); the sources read
`number()` and `time_start()` and write `set_error`. -/
structure HelloReply where
  number : Int
  time_start : Int
  error : String
deriving DecidableEq, Repr

/-- The C `struct timespec`: whole seconds and nanosecond-of-second. -/
structure timespec where
  tv_sec : Int
  tv_nsec : Int
deriving DecidableEq, Repr

/-- What `clock_gettime` guarantees about a reading: the seconds fit `time_t`
and the nanosecond field is a nanosecond-of-second. -/
def timespec.valid (t : timespec) : Prop :=
  -(2 : Int) ^ 63 ≤ t.tv_sec ∧ t.tv_sec < 2 ^ 63 ∧ 0 ≤ t.tv_nsec ∧ t.tv_nsec < 10 ^ 9

instance (t : timespec) : Decidable t.valid := by
  unfold timespec.valid; infer_instance

/-- A clock whose every reading is `t`. -/
def constClock (t : timespec) : Nat → timespec := fun _ => t

/-- A clock whose readings number `0 .. k` are `t0` and whose later readings are `t1`. -/
def stepClock (k : Nat) (t0 t1 : timespec) : Nat → timespec :=
  fun i => if i ≤ k then t0 else t1

/-- One insertion into the log stream: a latency sample
(`number ' ' time_start ' ' recv ' ' delta '\n'`) or the closing summary
(`"Total Latency: " secs endl`). -/
inductive LogLine where
  | sample (number time_start recv delta : Int)
  | total (secs : Int)
deriving DecidableEq, Repr

/-- The characters a log insertion writes. -/
def LogLine.render : LogLine → String
  | .sample n t r d =>
      toString n ++ " " ++ toString t ++ " " ++ toString r ++ " " ++ toString d ++ "\n"
  | .total s => "Total Latency: " ++ toString s ++ "\n"

/-- The three `GPR_ASSERT`s of the clients; a failing one aborts the process. -/
inductive Assertion where
  | cq_next
  | got_tag
  | ok
deriving DecidableEq, Repr

/-! ## `greeter_async_client.cc` -/

namespace AsyncClient

/-- What the call-local completion queue hands to `SayHello`: the return value
of `cq.Next`, the tag and `ok` flag it stored, and the contents of `reply` and
`status` at that moment (written by the runtime through `Finish`). -/
structure Completion where
  next_ret : Bool
  got_tag : Nat
  ok : Bool
  reply : HelloReply
  status_ok : Bool
deriving DecidableEq, Repr

/-- `GreeterClient::SayHello` of `greeter_async_client.cc`.  The argument `rt` is
the runtime and the remote server: it maps the request to the completion of the
call. -/
def SayHello (rt : HelloRequest → Completion) (number tt : Int) :
    Except Assertion HelloReply :=
  let request : HelloRequest := { number := number, time_start := tt }
  let c := rt request
  if c.next_ret = false then .error .cq_next
  else if c.got_tag ≠ 1 then .error .got_tag
  else if c.ok = false then .error .ok
  else if c.status_ok then .ok c.reply
  else .ok { c.reply with error := "RPC failed" }

/-- The environment of one run: the runtime's answer to the `i`-th call
(counting from 0) and the `i`-th reading of the clock (counting from 0). -/
structure Env where
  rt : Nat → HelloRequest → Completion
  clock : Nat → timespec

/-- The variables of `main` that change during the run, with the requests handed
to `SayHello` so far. -/
structure MainState where
  number : Int
  ticks : Nat
  calls : List HelloRequest
  out : List LogLine
  cout : List String
deriving DecidableEq, Repr

/-- The variables when the loop of `main` is entered: `number = 0`, one clock
reading taken (`start_n`), nothing sent or written. -/
def MainState.init : MainState :=
  { number := 0, ticks := 1, calls := [], out := [], cout := [] }

/-- One iteration of the body of `while(m--)` in `main`. -/
def loopBody (env : Env) (st : MainState) : Except (Assertion × MainState) MainState :=
  let number := inc64 st.number
  let tt := env.clock st.ticks
  let issued : MainState :=
    { st with number := number, ticks := st.ticks + 1,
              calls := st.calls ++ [{ number := number, time_start := tt.tv_nsec }] }
  match SayHello (env.rt st.calls.length) number tt.tv_nsec with
  | .error a => .error (a, issued)
  | .ok reply =>
      let ta := env.clock issued.ticks
      .ok { issued with
              ticks := issued.ticks + 1,
              out := issued.out ++
                [.sample reply.number reply.time_start ta.tv_nsec (sub64 ta.tv_nsec tt.tv_nsec)],
              cout := issued.cout ++
                ["Greeter received: " ++ toString reply.number ++ " " ++
                  toString ta.tv_nsec ++ "\n"] }

/-- The loop `while(m--) { ... }` of `main`, for a counter `m ≥ 0`. -/
def whileLoop (env : Env) : Nat → MainState → Except (Assertion × MainState) MainState
  | 0, st => .ok st
  | m + 1, st =>
      match loopBody env st with
      | .error e => .error e
      | .ok st' => whileLoop env m st'

/-- How the process ends. -/
inductive ExitStatus where
  | exited (code : Int)
  | aborted (a : Assertion)
deriving DecidableEq, Repr

/-- The end of a run: exit status and final state. -/
structure Run where
  exit : ExitStatus
  st : MainState
deriving DecidableEq, Repr

/-- The function `main` of `greeter_async_client.cc`, parameterised by the loop
count (`int64_t m = 100000` in the source). -/
def mainWith (m : Nat) (env : Env) : Run :=
  let start_n := env.clock 0
  match whileLoop env m MainState.init with
  | .error (a, st) => { exit := .aborted a, st := st }
  | .ok st =>
      let end_n := env.clock st.ticks
      let secs := sub64 end_n.tv_sec start_n.tv_sec
      { exit := .exited 0,
        st := { st with ticks := st.ticks + 1,
                        out := st.out ++ [.total secs],
                        cout := st.cout ++ ["Total Latency: " ++ toString secs ++ "\n"] } }

/-- The function `main` of `greeter_async_client.cc`. -/
def main (env : Env) : Run := mainWith 100000 env

/-- The reply `SayHello` hands back for a completion that passes its three assertions. -/
def answer (c : Completion) : HelloReply :=
  if c.status_ok then c.reply else { c.reply with error := "RPC failed" }

/-- Closed form: the request of iteration `k` of the loop of `main` (counting from 0). -/
def requestAt (env : Env) (k : Nat) : HelloRequest :=
  { number := (k : Int) + 1, time_start := (env.clock (1 + 2 * k)).tv_nsec }

/-- Closed form: the log line of iteration `k` when every completion passes the assertions. -/
def lineAt (env : Env) (k : Nat) : LogLine :=
  .sample (answer (env.rt k (requestAt env k))).number
    (answer (env.rt k (requestAt env k))).time_start
    (env.clock (2 + 2 * k)).tv_nsec
    (sub64 (env.clock (2 + 2 * k)).tv_nsec (env.clock (1 + 2 * k)).tv_nsec)

/-- Closed form: the console line of iteration `k` when every completion passes the assertions. -/
def coutAt (env : Env) (k : Nat) : String :=
  "Greeter received: " ++ toString (answer (env.rt k (requestAt env k))).number ++ " " ++
    toString (env.clock (2 + 2 * k)).tv_nsec ++ "\n"

/-- Closed form: the variables of `main` after `k` iterations that passed the assertions. -/
def stateAt (env : Env) (k : Nat) : MainState :=
  { number := k, ticks := 1 + 2 * k,
    calls := (List.range k).map (requestAt env),
    out := (List.range k).map (lineAt env),
    cout := (List.range k).map (coutAt env) }

/-- The state in which an iteration or the loop ended, whether it aborted or not. -/
def lastState : Except (Assertion × MainState) MainState → MainState
  | .ok st => st
  | .error (_, st) => st

/-- A runtime that answers every call at once, with tag 1 and `ok = true`; the
server echoes the request when `good` and fails otherwise. -/
def echoRt (good : Bool) : HelloRequest → Completion := fun req =>
  { next_ret := true, got_tag := 1, ok := true,
    reply := if good then { number := req.number, time_start := req.time_start, error := "" }
             else { number := 0, time_start := 0, error := "" },
    status_ok := good }

/-- An environment in which the server echoes every request with success, the
clock reads 5 s + 1000 ns up to the moment the first call is sent, and `ta` afterwards. -/
def scenarioEnv (ta : timespec) : Env :=
  { rt := fun _ => echoRt true, clock := stepClock 1 { tv_sec := 5, tv_nsec := 1000 } ta }

end AsyncClient

/-! ## `greeter_async_client3.cc` -/

namespace AsyncClient3

/-- The `struct AsyncClientCall`: the reply buffer and the status of the call.
The `context` and `response_reader` members are handles owned by the runtime and
carry no data the client reads. -/
structure AsyncClientCall where
  reply : HelloReply
  status_ok : Bool
deriving DecidableEq, Repr

/-- The free store: the live `AsyncClientCall` objects by address. -/
abbrev Heap := Nat → Option AsyncClientCall

/-- The state shared by the issuing thread and the drain thread.

* `heap`: the live call records;
* `pending`: the tags handed to `Finish` that `cq_` has not yielded yet, oldest first;
* `sent`: the requests handed to the stub, oldest first;
* `ticks`: how many clock readings the drain loop has taken;
* `pulls`: how many times the drain loop has called `cq_.Next`;
* `log`: the lines appended to `./AsyncLatencyTest.log`. -/
structure State where
  heap : Heap
  pending : List Nat
  sent : List HelloRequest
  ticks : Nat
  pulls : Nat
  log : List LogLine

/-- The state at the start of `main`. -/
def State.init : State :=
  { heap := fun _ => none, pending := [], sent := [], ticks := 0, pulls := 0, log := [] }

/-- `GreeterClient::SayHello` of `greeter_async_client3.cc`.  The argument `a` is
the address `new AsyncClientCall` returns; `new` never returns the address of a
live object, so there is no result when `a` is live.  The fresh record is
default-constructed (empty reply, status OK) and its address is the tag. -/
def SayHello (a : Nat) (number tt : Int) (s : State) : Option State :=
  let request : HelloRequest := { number := number, time_start := tt }
  if (s.heap a).isSome then none
  else
    let call : AsyncClientCall :=
      { reply := { number := 0, time_start := 0, error := "" }, status_ok := true }
    some { s with heap := Function.update s.heap a (some call),
                  pending := s.pending ++ [a],
                  sent := s.sent ++ [request] }

/-- What `cq_.Next` can report: a completion (its tag and `ok` flag, with the
reply and status the runtime stored in the call record through `Finish`), or
that the queue is shut down and drained. -/
inductive QueueResult where
  | event (tag : Nat) (ok : Bool) (reply : HelloReply) (status_ok : Bool)
  | closed
deriving DecidableEq, Repr

/-- The runtime completes the call registered under `tag`: it stores the reply
and the status in the record (if that record is live) and the tag leaves the
queue. -/
def deliver (tag : Nat) (reply : HelloReply) (status_ok : Bool) (s : State) : State :=
  { s with heap := if (s.heap tag).isSome then
                     Function.update s.heap tag (some { reply := reply, status_ok := status_ok })
                   else s.heap,
           pending := s.pending.erase tag }

/-- How one pass through the body of the drain loop ends. -/
inductive BodyResult where
  | continue (s : State)
  | aborted (s : State)
  | undefined (s : State)

/-- The body of `while (cq_.Next(&got_tag, &ok))` in `AsyncCompleteRpc`.
The `else` has no braces and is followed by comments only, so `delete call;` is
its branch.  Reading `call->status` through a tag that is not the address of a
live record is undefined behaviour. -/
def loopBody (clock : Nat → timespec) (got_tag : Nat) (ok : Bool) (s : State) : BodyResult :=
  if ok = false then .aborted s
  else
    match s.heap got_tag with
    | none => .undefined s
    | some call =>
        if call.status_ok then
          let ta := clock s.ticks
          .continue { s with
            ticks := s.ticks + 1,
            log := s.log ++
              [.sample call.reply.number call.reply.time_start ta.tv_nsec
                (sub64 ta.tv_nsec call.reply.time_start)] }
        else
          .continue { s with heap := Function.update s.heap got_tag none }

/-- How the drain thread ends up. -/
inductive Halt where
  | returned
  | aborted
  | blocked
  | undefined
deriving DecidableEq, Repr

/-- `GreeterClient::AsyncCompleteRpc`, run against the results `cq_.Next` will
report, in order.  When the queue has nothing more to report the thread stays
blocked inside `Next`. -/
def AsyncCompleteRpc (clock : Nat → timespec) : List QueueResult → State → Halt × State
  | [], s => (.blocked, { s with pulls := s.pulls + 1 })
  | .closed :: _, s => (.returned, { s with pulls := s.pulls + 1 })
  | .event tag ok reply status_ok :: rest, s =>
      match loopBody clock tag ok { deliver tag reply status_ok s with pulls := s.pulls + 1 } with
      | .continue s' => AsyncCompleteRpc clock rest s'
      | .aborted s' => (.aborted, s')
      | .undefined s' => (.undefined, s')

/-- A completion pulled with `ok = true`: its tag, and the reply and status the
runtime stored in the call record. -/
def completion (e : Nat × HelloReply × Bool) : QueueResult :=
  .event e.1 true e.2.1 e.2.2

/-- Closed form: the state after the drain loop has pulled and processed a
successful completion of the live record at `tag`. -/
def afterSuccess (clock : Nat → timespec) (tag : Nat) (reply : HelloReply) (s : State) : State :=
  { heap := (deliver tag reply true s).heap, pending := s.pending.erase tag, sent := s.sent,
    ticks := s.ticks + 1, pulls := s.pulls + 1,
    log := s.log ++ [.sample reply.number reply.time_start (clock s.ticks).tv_nsec
      (sub64 (clock s.ticks).tv_nsec reply.time_start)] }

/-- Closed form: the state after the drain loop has pulled and processed a
failed completion of the live record at `tag`. -/
def afterFailure (tag : Nat) (reply : HelloReply) (s : State) : State :=
  { heap := Function.update (deliver tag reply false s).heap tag none,
    pending := s.pending.erase tag, sent := s.sent,
    ticks := s.ticks, pulls := s.pulls + 1, log := s.log }

/-- The lines expected for a sequence of completions pulled with `ok = true`,
when the drain loop has taken `t` clock readings before: one sample for each
successful completion, in the order pulled, none for a failed one. -/
def samples (clock : Nat → timespec) : Nat → List (Nat × HelloReply × Bool) → List LogLine
  | _, [] => []
  | t, (_, reply, true) :: rest =>
      .sample reply.number reply.time_start (clock t).tv_nsec
        (sub64 (clock t).tv_nsec reply.time_start) :: samples clock (t + 1) rest
  | t, (_, _, false) :: rest => samples clock t rest

/-- The variables of `main` that change during the run. -/
structure MainVars where
  number : Int
  ticks : Nat
deriving DecidableEq, Repr

/-- The variables at the start of `main`: `int number = 1`, no clock reading yet. -/
def MainVars.init : MainVars := { number := 1, ticks := 0 }

/-- One iteration of `while(true)` in `main`, up to the call of `SayHello`:
the new variables and the arguments `(number, tt.tv_nsec)` of the call. -/
def mainBody (clock : Nat → timespec) (v : MainVars) : MainVars × HelloRequest :=
  let number := inc32 v.number
  let tt := clock v.ticks
  ({ number := number, ticks := v.ticks + 1 }, { number := number, time_start := tt.tv_nsec })

/-- The variables of `main` after `k` iterations of `while(true)`. -/
def mainVarsAfter (clock : Nat → timespec) : Nat → MainVars
  | 0 => MainVars.init
  | k + 1 => (mainBody clock (mainVarsAfter clock k)).1

/-- The arguments of the call of `SayHello` in iteration `k` (counting from 0). -/
def callArgs (clock : Nat → timespec) (k : Nat) : HelloRequest :=
  (mainBody clock (mainVarsAfter clock k)).2

/-- Issuing calls back to back, one per address the allocator returns, with no
completion in between. -/
def issueAll : List (Nat × Int × Int) → State → Option State
  | [], s => some s
  | (a, number, tt) :: rest, s =>
      match SayHello a number tt s with
      | none => none
      | some s' => issueAll rest s'

/-- The issue/complete step relation: the issuing thread runs `SayHello`, or
the queue yields a pending tag and the drain loop runs its body on it. -/
inductive Step (clock : Nat → timespec) : State → State → Prop where
  | issue (a : Nat) (number tt : Int) (s s' : State) :
      SayHello a number tt s = some s' → Step clock s s'
  | complete (tag : Nat) (ok : Bool) (reply : HelloReply) (status_ok : Bool) (s s' : State) :
      tag ∈ s.pending →
      loopBody clock tag ok { deliver tag reply status_ok s with pulls := s.pulls + 1 }
        = .continue s' →
      Step clock s s'

/-- The states the two threads can reach from the start of `main`. -/
inductive Reachable (clock : Nat → timespec) : State → Prop where
  | init : Reachable clock State.init
  | step (s s' : State) : Reachable clock s → Step clock s s' → Reachable clock s'

/-- The state after one call `SayHello(1, 1000)` whose record sits at address 100. -/
def oneIssued : State :=
  { heap := Function.update (fun _ => none) 100
      (some { reply := { number := 0, time_start := 0, error := "" }, status_ok := true }),
    pending := [100], sent := [{ number := 1, time_start := 1000 }],
    ticks := 0, pulls := 0, log := [] }

/-- The state after a second call `SayHello(2, 1001)` whose record sits at address 101. -/
def twoIssued : State :=
  { heap := Function.update oneIssued.heap 101
      (some { reply := { number := 0, time_start := 0, error := "" }, status_ok := true }),
    pending := [100, 101],
    sent := [{ number := 1, time_start := 1000 }, { number := 2, time_start := 1001 }],
    ticks := 0, pulls := 0, log := [] }

/-- The state after a third call `SayHello(3, 1002)` whose record sits at address 102. -/
def threeIssued : State :=
  { heap := Function.update twoIssued.heap 102
      (some { reply := { number := 0, time_start := 0, error := "" }, status_ok := true }),
    pending := [100, 101, 102],
    sent := [{ number := 1, time_start := 1000 }, { number := 2, time_start := 1001 },
             { number := 3, time_start := 1002 }],
    ticks := 0, pulls := 0, log := [] }

/-- The three calls of `threeIssued` completing out of issuance order: the
second call with success, then the third with a failure, then the first with
success. -/
def shuffled : List (Nat × HelloReply × Bool) :=
  [(101, { number := 2, time_start := 1001, error := "" }, true),
   (102, { number := 0, time_start := 0, error := "" }, false),
   (100, { number := 1, time_start := 1000, error := "" }, true)]

/-- The state `oneIssued` once the runtime has stored the echoing, successful reply. -/
def oneEchoed : State :=
  deliver 100 { number := 1, time_start := 1000, error := "" } true oneIssued

end AsyncClient3

/-! ## Machine arithmetic lemmas -/

lemma wrap64_of_fits (x : Int) (h1 : -(2 : Int) ^ 63 ≤ x) (h2 : x < 2 ^ 63) : wrap64 x = x := by
  unfold wrap64
  rw [Int.emod_eq_of_lt (by omega) (by omega)]
  omega

lemma sub64_nsec (a b : Int) (ha : 0 ≤ a ∧ a < 10 ^ 9) (hb : 0 ≤ b ∧ b < 10 ^ 9) :
    sub64 a b = a - b := by
  unfold sub64
  apply wrap64_of_fits <;> omega

/-! ## `SayHello` of `greeter_async_client.cc` -/

/-- C1: in `greeter_async_client.cc`, when the single completion of a call is
pulled (`Next` returns true) with tag 1 and `ok = true`, `SayHello` returns a
reply and raises nothing: the reply the runtime stored when the status is
successful, and otherwise that reply with its error field set to "RPC failed"
and its number and start time unchanged. -/
theorem C1_SayHello_returns_reply (rt : HelloRequest → AsyncClient.Completion)
    (number tt : Int)
    (hnext : (rt { number := number, time_start := tt }).next_ret = true)
    (htag : (rt { number := number, time_start := tt }).got_tag = 1)
    (hok : (rt { number := number, time_start := tt }).ok = true) :
    ((rt { number := number, time_start := tt }).status_ok = true →
      AsyncClient.SayHello rt number tt
        = .ok (rt { number := number, time_start := tt }).reply) ∧
    ((rt { number := number, time_start := tt }).status_ok = false →
      AsyncClient.SayHello rt number tt
        = .ok { number := (rt { number := number, time_start := tt }).reply.number,
                time_start := (rt { number := number, time_start := tt }).reply.time_start,
                error := "RPC failed" }) := by
  constructor <;> intro hs <;> simp [AsyncClient.SayHello, hnext, htag, hok, hs]

/-- Witness for C1: a failing remote call with sequence number 7 and start time 1000. -/
theorem C1_SayHello_returns_reply_witness :
    AsyncClient.SayHello (AsyncClient.echoRt false) 7 1000
      = .ok { number := 0, time_start := 0, error := "RPC failed" } :=
  (C1_SayHello_returns_reply (AsyncClient.echoRt false) 7 1000 rfl rfl rfl).2 rfl

/-! ## One iteration of the loop of `main` in `greeter_async_client.cc` -/

namespace AsyncClient

lemma loopBody_of_ok (env : Env) (st : MainState) (reply : HelloReply)
    (h : SayHello (env.rt st.calls.length) (inc64 st.number) (env.clock st.ticks).tv_nsec
      = .ok reply) :
    loopBody env st = .ok
      { number := inc64 st.number, ticks := st.ticks + 1 + 1,
        calls := st.calls ++
          [{ number := inc64 st.number, time_start := (env.clock st.ticks).tv_nsec }],
        out := st.out ++
          [.sample reply.number reply.time_start (env.clock (st.ticks + 1)).tv_nsec
            (sub64 (env.clock (st.ticks + 1)).tv_nsec (env.clock st.ticks).tv_nsec)],
        cout := st.cout ++
          ["Greeter received: " ++ toString reply.number ++ " " ++
            toString (env.clock (st.ticks + 1)).tv_nsec ++ "\n"] } := by
  simp [loopBody, h]

lemma loopBody_of_error (env : Env) (st : MainState) (a : Assertion)
    (h : SayHello (env.rt st.calls.length) (inc64 st.number) (env.clock st.ticks).tv_nsec
      = .error a) :
    loopBody env st = .error (a,
      { number := inc64 st.number, ticks := st.ticks + 1,
        calls := st.calls ++
          [{ number := inc64 st.number, time_start := (env.clock st.ticks).tv_nsec }],
        out := st.out, cout := st.cout }) := by
  simp [loopBody, h]

lemma loopBody_ok_inv (env : Env) (st st' : MainState) (h : loopBody env st = .ok st') :
    ∃ reply, SayHello (env.rt st.calls.length) (inc64 st.number) (env.clock st.ticks).tv_nsec
      = .ok reply := by
  cases hs : SayHello (env.rt st.calls.length) (inc64 st.number) (env.clock st.ticks).tv_nsec with
  | error a => rw [loopBody_of_error env st a hs] at h; cases h
  | ok reply => exact ⟨reply, rfl⟩

lemma SayHello_of_passes (rt : HelloRequest → Completion) (number tt : Int)
    (h : (rt { number := number, time_start := tt }).next_ret = true ∧
      (rt { number := number, time_start := tt }).got_tag = 1 ∧
      (rt { number := number, time_start := tt }).ok = true) :
    SayHello rt number tt = .ok (answer (rt { number := number, time_start := tt })) := by
  obtain ⟨h1, h2, h3⟩ := h
  by_cases hs : (rt { number := number, time_start := tt }).status_ok = true <;>
    simp [SayHello, answer, h1, h2, h3, hs]

lemma inc64_natCast (k : Nat) (hk : (k : Int) + 1 < 2 ^ 63) : inc64 (k : Int) = (k : Int) + 1 := by
  unfold inc64
  apply wrap64_of_fits <;> omega

lemma stateAt_zero (env : Env) : stateAt env 0 = MainState.init := by
  simp [stateAt, MainState.init]

lemma loopBody_stateAt (env : Env)
    (H : ∀ i req, (env.rt i req).next_ret = true ∧ (env.rt i req).got_tag = 1 ∧
      (env.rt i req).ok = true)
    (k : Nat) (hk : (k : Int) + 1 < 2 ^ 63) :
    loopBody env (stateAt env k) = .ok (stateAt env (k + 1)) := by
  have hn : inc64 (stateAt env k).number = (k : Int) + 1 := inc64_natCast k hk
  have hlen : (stateAt env k).calls.length = k := by simp [stateAt]
  have hsay := SayHello_of_passes (env.rt (stateAt env k).calls.length)
    (inc64 (stateAt env k).number) (env.clock (stateAt env k).ticks).tv_nsec (H _ _)
  rw [loopBody_of_ok env (stateAt env k) _ hsay, hn, hlen]
  have e1 : 1 + 2 * k + 1 = 2 + 2 * k := by omega
  have e2 : 2 + 2 * k + 1 = 1 + 2 * (k + 1) := by omega
  simp only [stateAt, List.range_succ, List.map_append, List.map_cons, List.map_nil,
    requestAt, lineAt, coutAt, e1, e2, Nat.cast_add, Nat.cast_one]

lemma whileLoop_stateAt (env : Env)
    (H : ∀ i req, (env.rt i req).next_ret = true ∧ (env.rt i req).got_tag = 1 ∧
      (env.rt i req).ok = true)
    (m : Nat) : ∀ k : Nat, ((k + m : Nat) : Int) < 2 ^ 63 →
      whileLoop env m (stateAt env k) = .ok (stateAt env (k + m)) := by
  induction m with
  | zero => intro k _; rfl
  | succ m ih =>
      intro k hk
      have h1 : (k : Int) + 1 < 2 ^ 63 := by push_cast at hk; omega
      have h2 : ((k + 1 + m : Nat) : Int) < 2 ^ 63 := by push_cast at hk ⊢; omega
      have e : k + (m + 1) = k + 1 + m := by omega
      rw [whileLoop, loopBody_stateAt env H k h1]
      simp only
      rw [ih (k + 1) h2, e]

lemma mainWith_of_passes (env : Env)
    (H : ∀ i req, (env.rt i req).next_ret = true ∧ (env.rt i req).got_tag = 1 ∧
      (env.rt i req).ok = true)
    (m : Nat) (hm : (m : Int) < 2 ^ 63) :
    mainWith m env =
      { exit := .exited 0,
        st := { number := m, ticks := 1 + 2 * m + 1,
                calls := (List.range m).map (requestAt env),
                out := (List.range m).map (lineAt env) ++
                  [.total (sub64 (env.clock (1 + 2 * m)).tv_sec (env.clock 0).tv_sec)],
                cout := (List.range m).map (coutAt env) ++
                  ["Total Latency: " ++
                    toString (sub64 (env.clock (1 + 2 * m)).tv_sec (env.clock 0).tv_sec) ++
                    "\n"] } } := by
  have h := whileLoop_stateAt env H m 0 (by simpa using hm)
  rw [stateAt_zero, Nat.zero_add] at h
  simp only [mainWith, h, stateAt]

lemma mainWith_run (env : Env)
    (H : ∀ i req, (env.rt i req).next_ret = true ∧ (env.rt i req).got_tag = 1 ∧
      (env.rt i req).ok = true)
    (m : Nat) (hm : (m : Int) < 2 ^ 63) :
    (mainWith m env).exit = .exited 0 ∧
    (mainWith m env).st.calls.length = m ∧
    (mainWith m env).st.out.length = m + 1 ∧
    (∀ k : Nat, k < m →
      (mainWith m env).st.calls[k]? =
        some { number := (k : Int) + 1, time_start := (env.clock (1 + 2 * k)).tv_nsec } ∧
      ∃ reply, SayHello (env.rt k) ((k : Int) + 1) (env.clock (1 + 2 * k)).tv_nsec = .ok reply ∧
        (mainWith m env).st.out[k]? =
          some (.sample reply.number reply.time_start (env.clock (2 + 2 * k)).tv_nsec
            (sub64 (env.clock (2 + 2 * k)).tv_nsec (env.clock (1 + 2 * k)).tv_nsec))) ∧
    (mainWith m env).st.out[m]? =
      some (.total (sub64 (env.clock (1 + 2 * m)).tv_sec (env.clock 0).tv_sec)) := by
  rw [mainWith_of_passes env H m hm]
  refine ⟨rfl, by simp, by simp, ?_, ?_⟩
  · intro k hk
    refine ⟨?_, answer (env.rt k (requestAt env k)), SayHello_of_passes _ _ _ (H _ _), ?_⟩
    · simp [List.getElem?_map, List.getElem?_range hk, requestAt]
    · have hlt : k < ((List.range m).map (lineAt env)).length := by simpa using hk
      simp only [List.getElem?_append_left hlt]
      simp [List.getElem?_map, List.getElem?_range hk, lineAt, requestAt]
  · have hlen : ((List.range m).map (lineAt env)).length = m := by simp
    simp only
    rw [List.getElem?_append_right (by rw [hlen]), hlen]
    simp

end AsyncClient

/-! ## The body of the drain loop in `greeter_async_client3.cc` -/

namespace AsyncClient3

lemma loopBody_success (clock : Nat → timespec) (tag : Nat) (s : State) (call : AsyncClientCall)
    (h : s.heap tag = some call) (hs : call.status_ok = true) :
    loopBody clock tag true s = .continue
      { s with ticks := s.ticks + 1,
               log := s.log ++
                 [.sample call.reply.number call.reply.time_start (clock s.ticks).tv_nsec
                   (sub64 (clock s.ticks).tv_nsec call.reply.time_start)] } := by
  simp [loopBody, h, hs]

lemma loopBody_failure (clock : Nat → timespec) (tag : Nat) (s : State) (call : AsyncClientCall)
    (h : s.heap tag = some call) (hs : call.status_ok = false) :
    loopBody clock tag true s = .continue { s with heap := Function.update s.heap tag none } := by
  simp [loopBody, h, hs]

lemma deliver_heap_live (tag : Nat) (reply : HelloReply) (st : Bool) (s : State)
    (hl : (s.heap tag).isSome = true) :
    (deliver tag reply st s).heap tag = some { reply := reply, status_ok := st } := by
  simp [deliver, hl]

lemma deliver_heap_other (tag : Nat) (reply : HelloReply) (st : Bool) (s : State)
    (a : Nat) (ha : a ≠ tag) : (deliver tag reply st s).heap a = s.heap a := by
  unfold deliver
  by_cases hl : (s.heap tag).isSome = true
  · simp [hl, Function.update_noteq ha]
  · simp [hl]

lemma samples_length_le (clock : Nat → timespec) :
    ∀ (evs : List (Nat × HelloReply × Bool)) (t : Nat),
      (samples clock t evs).length = (evs.filter (fun e => e.2.2)).length := by
  intro evs
  induction evs with
  | nil => intro t; rfl
  | cons e rest ih =>
      intro t
      obtain ⟨tag, reply, st⟩ := e
      cases st
      · simpa [samples] using ih t
      · simpa [samples] using ih (t + 1)

lemma samples_fields (clock : Nat → timespec) :
    ∀ (evs : List (Nat × HelloReply × Bool)) (t : Nat),
      (samples clock t evs).map
          (fun l => match l with
            | .sample n ts _ _ => (n, ts)
            | .total _ => (0, 0))
        = (evs.filter (fun e => e.2.2)).map (fun e => (e.2.1.number, e.2.1.time_start)) := by
  intro evs
  induction evs with
  | nil => intro t; rfl
  | cons e rest ih =>
      intro t
      obtain ⟨tag, reply, st⟩ := e
      cases st
      · simpa [samples] using ih t
      · simpa [samples] using ih (t + 1)

lemma step_success (clock : Nat → timespec) (tag : Nat) (reply : HelloReply) (s : State)
    (hl : (s.heap tag).isSome = true) :
    loopBody clock tag true { deliver tag reply true s with pulls := s.pulls + 1 }
      = .continue (afterSuccess clock tag reply s) := by
  have hget : ({ deliver tag reply true s with pulls := s.pulls + 1 } : State).heap tag
      = some { reply := reply, status_ok := true } := deliver_heap_live tag reply true s hl
  rw [loopBody_success clock tag _ _ hget rfl]
  rfl

lemma step_failure (clock : Nat → timespec) (tag : Nat) (reply : HelloReply) (s : State)
    (hl : (s.heap tag).isSome = true) :
    loopBody clock tag true { deliver tag reply false s with pulls := s.pulls + 1 }
      = .continue (afterFailure tag reply s) := by
  have hget : ({ deliver tag reply false s with pulls := s.pulls + 1 } : State).heap tag
      = some { reply := reply, status_ok := false } := deliver_heap_live tag reply false s hl
  rw [loopBody_failure clock tag _ _ hget rfl]
  rfl

lemma afterSuccess_heap_other (clock : Nat → timespec) (tag : Nat) (reply : HelloReply)
    (s : State) (a : Nat) (ha : a ≠ tag) : (afterSuccess clock tag reply s).heap a = s.heap a :=
  deliver_heap_other tag reply true s a ha

lemma afterFailure_heap_other (tag : Nat) (reply : HelloReply)
    (s : State) (a : Nat) (ha : a ≠ tag) : (afterFailure tag reply s).heap a = s.heap a := by
  show Function.update (deliver tag reply false s).heap tag none a = s.heap a
  rw [Function.update_noteq ha]
  exact deliver_heap_other tag reply false s a ha

lemma SayHello_eq_some (a : Nat) (number tt : Int) (s s' : State)
    (h : SayHello a number tt s = some s') :
    (s.heap a).isSome = false ∧
    s' = { s with
      heap := Function.update s.heap a
        (some { reply := { number := 0, time_start := 0, error := "" }, status_ok := true }),
      pending := s.pending ++ [a],
      sent := s.sent ++ [{ number := number, time_start := tt }] } := by
  unfold SayHello at h
  by_cases hl : (s.heap a).isSome = true
  · simp [hl] at h
  · simp only [hl] at h
    simp only [Bool.false_eq_true, if_false, Option.some.injEq] at h
    exact ⟨by simpa using hl, h.symm⟩

/-- Processing a run of completions pulled with `ok = true` whose tags are
distinct addresses of live records. -/
lemma AsyncCompleteRpc_run (clock : Nat → timespec) :
    ∀ (evs : List (Nat × HelloReply × Bool)) (s : State),
      (evs.map (fun e => e.1)).Nodup → (∀ e ∈ evs, (s.heap e.1).isSome = true) →
      ∃ s', (∀ tail, AsyncCompleteRpc clock (evs.map completion ++ tail) s
                = AsyncCompleteRpc clock tail s') ∧
        s'.log = s.log ++ samples clock s.ticks evs ∧
        s'.pulls = s.pulls + evs.length ∧
        s'.pending = s.pending.diff (evs.map (fun e => e.1)) ∧
        s'.sent = s.sent ∧
        (∀ a, a ∉ evs.map (fun e => e.1) → s'.heap a = s.heap a) ∧
        (∀ e ∈ evs, s'.heap e.1 =
          if e.2.2 then some { reply := e.2.1, status_ok := true } else none) := by
  intro evs
  induction evs with
  | nil =>
      intro s _ _
      exact ⟨s, fun _ => rfl, by simp [samples], rfl, rfl, rfl, fun _ _ => rfl, by simp⟩
  | cons e rest ih =>
      intro s hnd hlive
      obtain ⟨tag, reply, st⟩ := e
      have hnd' : tag ∉ rest.map (fun e => e.1) ∧ (rest.map (fun e => e.1)).Nodup := by
        simpa using hnd
      have hl : (s.heap tag).isSome = true := hlive (tag, reply, st) (List.mem_cons_self _ _)
      have hne : ∀ e ∈ rest, e.1 ≠ tag := by
        intro e he h
        exact hnd'.1 (h ▸ List.mem_map_of_mem (fun e => e.1) he)
      cases st with
      | true =>
          have hb := step_success clock tag reply s hl
          obtain ⟨s', h1, h2, h3, h4, h5, h6, h7⟩ :=
            ih (afterSuccess clock tag reply s) hnd'.2 (by
              intro e he
              rw [afterSuccess_heap_other _ _ _ _ _ (hne e he)]
              exact hlive e (List.mem_cons_of_mem _ he))
          refine ⟨s', ?_, ?_, ?_, ?_, ?_, ?_, ?_⟩
          · intro tail
            rw [← h1 tail]
            simp only [List.map_cons, List.cons_append, completion, AsyncCompleteRpc, hb]
            rfl
          · rw [h2]; simp [samples, afterSuccess]
          · rw [h3]; simp [afterSuccess]; omega
          · rw [h4]; simp [afterSuccess, List.diff_cons]
          · rw [h5]; rfl
          · intro a ha
            have ha' : a ≠ tag ∧ a ∉ rest.map (fun e => e.1) := by
              simpa [not_or] using ha
            rw [h6 a ha'.2]
            exact afterSuccess_heap_other _ _ _ _ _ ha'.1
          · intro e he
            rcases List.mem_cons.1 he with rfl | he
            · rw [h6 tag hnd'.1]
              exact deliver_heap_live tag reply true s hl
            · exact h7 e he
      | false =>
          have hb := step_failure clock tag reply s hl
          obtain ⟨s', h1, h2, h3, h4, h5, h6, h7⟩ :=
            ih (afterFailure tag reply s) hnd'.2 (by
              intro e he
              rw [afterFailure_heap_other _ _ _ _ (hne e he)]
              exact hlive e (List.mem_cons_of_mem _ he))
          refine ⟨s', ?_, ?_, ?_, ?_, ?_, ?_, ?_⟩
          · intro tail
            rw [← h1 tail]
            simp only [List.map_cons, List.cons_append, completion, AsyncCompleteRpc, hb]
            rfl
          · rw [h2]; simp [samples, afterFailure]
          · rw [h3]; simp [afterFailure]; omega
          · rw [h4]; simp [afterFailure, List.diff_cons]
          · rw [h5]; rfl
          · intro a ha
            have ha' : a ≠ tag ∧ a ∉ rest.map (fun e => e.1) := by
              simpa [not_or] using ha
            rw [h6 a ha'.2]
            exact afterFailure_heap_other _ _ _ _ ha'.1
          · intro e he
            rcases List.mem_cons.1 he with rfl | he
            · rw [h6 tag hnd'.1]
              simp [afterFailure]
            · exact h7 e he

end AsyncClient3

/-! ## The latency line -/

/-- C2, the claim as stated fails in `greeter_async_client3.cc`: the call was sent
with start time 1000, its successful reply carries start time 5, the receive
reading is 2000 ns; the logged delta is 1995 and not 2000 - 1000. -/
theorem C2_delta_uses_reply_time :
    AsyncClient3.SayHello 100 1 1000 AsyncClient3.State.init = some AsyncClient3.oneIssued ∧
    (AsyncClient3.AsyncCompleteRpc (constClock { tv_sec := 0, tv_nsec := 2000 })
        [.event 100 true { number := 1, time_start := 5, error := "" } true, .closed]
        AsyncClient3.oneIssued).2.log = [.sample 1 5 2000 1995] ∧
    (AsyncClient3.AsyncCompleteRpc (constClock { tv_sec := 0, tv_nsec := 2000 })
        [.event 100 true { number := 1, time_start := 5, error := "" } true, .closed]
        AsyncClient3.oneIssued).2.log ≠ [.sample 1 5 2000 (2000 - 1000)] := by
  refine ⟨?_, ?_, ?_⟩
  · simp [AsyncClient3.SayHello, AsyncClient3.State.init, AsyncClient3.oneIssued]
  · simp [AsyncClient3.AsyncCompleteRpc, AsyncClient3.loopBody, AsyncClient3.deliver,
      AsyncClient3.oneIssued, constClock, sub64, wrap64]
  · simp [AsyncClient3.AsyncCompleteRpc, AsyncClient3.loopBody, AsyncClient3.deliver,
      AsyncClient3.oneIssued, constClock, sub64, wrap64]

lemma render_scenario (r d : Int) :
    (LogLine.sample 1 1000 r d).render
      = "1 1000 " ++ toString r ++ " " ++ toString d ++ "\n" := by
  have h : toString (1 : Int) ++ " " ++ toString (1000 : Int) ++ " " = "1 1000 " := by decide
  simp only [LogLine.render, h]

/-- C2 (amended): a logged line carries the reply's number, the reply's start
time, the receive reading `ta.tv_nsec` and a delta in 64-bit arithmetic.  In
`greeter_async_client.cc` the delta is the receive reading minus the reading
`tt.tv_nsec` taken when the call was sent.  In `greeter_async_client3.cc` the
delta is the receive reading minus the start time carried by the reply, which is
receive minus sent whenever the reply echoes the start time of the request.  For
a call sent with number 1 and start time 1000, echoed with success and received
at a nanosecond reading `r`, the line reads "1 1000 r (r-1000)" in both clients. -/
theorem C2_latency_line
    (env : AsyncClient.Env) (st : AsyncClient.MainState) (reply : HelloReply)
    (hA : AsyncClient.SayHello (env.rt st.calls.length) (inc64 st.number)
        (env.clock st.ticks).tv_nsec = .ok reply)
    (clock : Nat → timespec) (tag : Nat) (s : AsyncClient3.State)
    (call : AsyncClient3.AsyncClientCall)
    (hB : s.heap tag = some call) (hs : call.status_ok = true)
    (r : Int) (hr : 0 ≤ r ∧ r < 10 ^ 9) :
    (∃ st', AsyncClient.loopBody env st = .ok st' ∧
      st'.out = st.out ++
        [.sample reply.number reply.time_start (env.clock (st.ticks + 1)).tv_nsec
          (sub64 (env.clock (st.ticks + 1)).tv_nsec (env.clock st.ticks).tv_nsec)] ∧
      ((env.clock st.ticks).valid → (env.clock (st.ticks + 1)).valid →
        sub64 (env.clock (st.ticks + 1)).tv_nsec (env.clock st.ticks).tv_nsec
          = (env.clock (st.ticks + 1)).tv_nsec - (env.clock st.ticks).tv_nsec) ∧
      (reply.number = 1 → reply.time_start = 1000 → (env.clock st.ticks).tv_nsec = 1000 →
        (env.clock (st.ticks + 1)).tv_nsec = r →
        st'.out.map LogLine.render = st.out.map LogLine.render ++
          ["1 1000 " ++ toString r ++ " " ++ toString (r - 1000) ++ "\n"])) ∧
    (∃ s', AsyncClient3.loopBody clock tag true s = .continue s' ∧
      s'.log = s.log ++
        [.sample call.reply.number call.reply.time_start (clock s.ticks).tv_nsec
          (sub64 (clock s.ticks).tv_nsec call.reply.time_start)] ∧
      (∀ sent : timespec, sent.valid → (clock s.ticks).valid →
        call.reply.time_start = sent.tv_nsec →
        sub64 (clock s.ticks).tv_nsec call.reply.time_start
          = (clock s.ticks).tv_nsec - sent.tv_nsec) ∧
      (call.reply.number = 1 → call.reply.time_start = 1000 → (clock s.ticks).tv_nsec = r →
        s'.log.map LogLine.render = s.log.map LogLine.render ++
          ["1 1000 " ++ toString r ++ " " ++ toString (r - 1000) ++ "\n"])) := by
  constructor
  · refine ⟨_, AsyncClient.loopBody_of_ok env st reply hA, rfl, ?_, ?_⟩
    · intro h0 h1
      exact sub64_nsec _ _ ⟨h1.2.2.1, h1.2.2.2⟩ ⟨h0.2.2.1, h0.2.2.2⟩
    · intro hn ht h0 h1
      simp only [List.map_append, List.map_cons, List.map_nil, hn, ht, h0, h1]
      rw [render_scenario, sub64_nsec r 1000 hr (by norm_num)]
  · refine ⟨_, AsyncClient3.loopBody_success clock tag s call hB hs, rfl, ?_, ?_⟩
    · intro sent h0 h1 he
      rw [he]
      exact sub64_nsec _ _ ⟨h1.2.2.1, h1.2.2.2⟩ ⟨h0.2.2.1, h0.2.2.2⟩
    · intro hn ht h1
      simp only [List.map_append, List.map_cons, List.map_nil, hn, ht, h1]
      rw [render_scenario, sub64_nsec r 1000 hr (by norm_num)]

/-- Witness for C2: number 1, start time 1000 ns, echoed with success, received at 1500 ns. -/
theorem C2_latency_line_witness :
    (∃ st', AsyncClient.loopBody (AsyncClient.scenarioEnv { tv_sec := 5, tv_nsec := 1500 })
        AsyncClient.MainState.init = .ok st' ∧
      st'.out.map LogLine.render = ["1 1000 1500 500\n"]) ∧
    (∃ s', AsyncClient3.loopBody (constClock { tv_sec := 5, tv_nsec := 1500 }) 100 true
        AsyncClient3.oneEchoed = .continue s' ∧
      s'.log.map LogLine.render = ["1 1000 1500 500\n"]) := by
  obtain ⟨⟨st', h1, _, _, h4⟩, ⟨s', g1, _, _, g4⟩⟩ :=
    C2_latency_line (AsyncClient.scenarioEnv { tv_sec := 5, tv_nsec := 1500 })
      AsyncClient.MainState.init { number := 1, time_start := 1000, error := "" }
      (by rfl)
      (constClock { tv_sec := 5, tv_nsec := 1500 }) 100 AsyncClient3.oneEchoed
      { reply := { number := 1, time_start := 1000, error := "" }, status_ok := true }
      (by simp [AsyncClient3.oneEchoed, AsyncClient3.oneIssued, AsyncClient3.deliver])
      rfl 1500 (by norm_num)
  exact ⟨⟨st', h1, h4 rfl rfl rfl rfl⟩, ⟨s', g1, g4 rfl rfl rfl⟩⟩

/-- C10: the sent and received times are the `tv_nsec` fields of two clock
readings.  For all valid readings `tt` (sent) and `ta` (received) the logged
delta is `ta.tv_nsec - tt.tv_nsec` and lies strictly between -10^9 and 10^9, in
both clients (in `greeter_async_client3.cc` for a reply echoing the sent time).
There are readings with `ta` in a later second than `tt` for which the received
time is smaller than the sent time and the logged delta is negative. -/
theorem C10_delta_of_nanosecond_fields (tt ta : timespec) (htt : tt.valid) (hta : ta.valid) :
    (∀ (env : AsyncClient.Env) (st st' : AsyncClient.MainState),
      env.clock st.ticks = tt → env.clock (st.ticks + 1) = ta →
      AsyncClient.loopBody env st = .ok st' →
      ∃ n t d, st'.out = st.out ++ [.sample n t ta.tv_nsec d] ∧
        d = ta.tv_nsec - tt.tv_nsec ∧ -10 ^ 9 < d ∧ d < 10 ^ 9) ∧
    (∀ (clock : Nat → timespec) (tag : Nat) (s : AsyncClient3.State)
        (call : AsyncClient3.AsyncClientCall),
      s.heap tag = some call → call.status_ok = true →
      call.reply.time_start = tt.tv_nsec → clock s.ticks = ta →
      ∃ s' d, AsyncClient3.loopBody clock tag true s = .continue s' ∧
        s'.log = s.log ++ [.sample call.reply.number tt.tv_nsec ta.tv_nsec d] ∧
        d = ta.tv_nsec - tt.tv_nsec ∧ -10 ^ 9 < d ∧ d < 10 ^ 9) ∧
    (∃ tt0 ta0 : timespec, tt0.valid ∧ ta0.valid ∧ tt0.tv_sec < ta0.tv_sec ∧
      ta0.tv_nsec < tt0.tv_nsec ∧
      (∃ st' d, AsyncClient.loopBody (AsyncClient.scenarioEnv ta0) AsyncClient.MainState.init
          = .ok st' ∧
        (AsyncClient.scenarioEnv ta0).clock 1 = tt0 ∧
        (AsyncClient.scenarioEnv ta0).clock 2 = ta0 ∧
        st'.out = [.sample 1 tt0.tv_nsec ta0.tv_nsec d] ∧ d < 0) ∧
      (∃ s' d, AsyncClient3.loopBody (constClock ta0) 100 true AsyncClient3.oneEchoed
          = .continue s' ∧
        AsyncClient3.oneEchoed.sent = [{ number := 1, time_start := tt0.tv_nsec }] ∧
        s'.log = [.sample 1 tt0.tv_nsec ta0.tv_nsec d] ∧ d < 0)) := by
  have hd : sub64 ta.tv_nsec tt.tv_nsec = ta.tv_nsec - tt.tv_nsec :=
    sub64_nsec _ _ ⟨hta.2.2.1, hta.2.2.2⟩ ⟨htt.2.2.1, htt.2.2.2⟩
  have hb : -10 ^ 9 < ta.tv_nsec - tt.tv_nsec ∧ ta.tv_nsec - tt.tv_nsec < 10 ^ 9 := by
    have := hta.2.2; have := htt.2.2
    constructor <;> omega
  refine ⟨?_, ?_, ?_⟩
  · intro env st st' h0 h1 hl
    obtain ⟨reply, hr⟩ := AsyncClient.loopBody_ok_inv env st st' hl
    rw [AsyncClient.loopBody_of_ok env st reply hr] at hl
    injection hl with hl
    subst hl
    refine ⟨reply.number, reply.time_start, _, ?_, hd.symm ▸ rfl, hb⟩
    simp only [h0, h1, hd]
  · intro clock tag s call hc hs he h1
    refine ⟨_, _, AsyncClient3.loopBody_success clock tag s call hc hs, ?_, rfl, hb⟩
    simp only [he, h1, hd]
  · refine ⟨{ tv_sec := 5, tv_nsec := 1000 }, { tv_sec := 6, tv_nsec := 500 },
      by decide, by decide, by decide, by decide, ?_, ?_⟩
    · exact ⟨_, -500, AsyncClient.loopBody_of_ok _ _
        { number := 1, time_start := 1000, error := "" } (by rfl),
        by decide, by decide, by decide, by decide⟩
    · refine ⟨_, -500, AsyncClient3.loopBody_success _ 100 _
        { reply := { number := 1, time_start := 1000, error := "" }, status_ok := true }
        (by simp [AsyncClient3.oneEchoed, AsyncClient3.oneIssued, AsyncClient3.deliver]) rfl,
        ?_, ?_, by decide⟩
      · simp [AsyncClient3.oneEchoed, AsyncClient3.oneIssued, AsyncClient3.deliver]
      · simp [AsyncClient3.oneEchoed, AsyncClient3.oneIssued, AsyncClient3.deliver,
          constClock, sub64, wrap64]

/-- Witness for C10: sent at 5 s + 1000 ns, received at 6 s + 500 ns; the logged
delta is -500. -/
theorem C10_delta_of_nanosecond_fields_witness :
    ∃ st' n t d, AsyncClient.loopBody (AsyncClient.scenarioEnv { tv_sec := 6, tv_nsec := 500 })
        AsyncClient.MainState.init = .ok st' ∧
      st'.out = [.sample n t 500 d] ∧ d = 500 - 1000 ∧ -10 ^ 9 < d ∧ d < 10 ^ 9 :=
  have h := AsyncClient.loopBody_of_ok (AsyncClient.scenarioEnv { tv_sec := 6, tv_nsec := 500 })
    AsyncClient.MainState.init { number := 1, time_start := 1000, error := "" } (by rfl)
  have h2 := (C10_delta_of_nanosecond_fields { tv_sec := 5, tv_nsec := 1000 }
      { tv_sec := 6, tv_nsec := 500 } (by decide) (by decide)).1
      (AsyncClient.scenarioEnv { tv_sec := 6, tv_nsec := 500 }) AsyncClient.MainState.init _
      rfl rfl h
  ⟨_, h2.choose, h2.choose_spec.choose, h2.choose_spec.choose_spec.choose, h,
    h2.choose_spec.choose_spec.choose_spec⟩

/-! ## The bounded run of `greeter_async_client.cc` -/

/-- C3: in `greeter_async_client.cc`, when every call's completion is pulled with
tag 1 and `ok = true` (whatever the remote status), `main` exits with code 0 after
exactly 100000 calls; the `k`-th call (from 0) carries sequence number `k + 1`;
the log holds 100000 sample lines followed by one summary line; the `k`-th line
is the sample of the reply returned for the `k`-th call; the summary carries
`end_n.tv_sec - start_n.tv_sec` and reads "Total Latency: " followed by it. -/
theorem C3_main_bounded_run (env : AsyncClient.Env)
    (H : ∀ i req, (env.rt i req).next_ret = true ∧ (env.rt i req).got_tag = 1 ∧
      (env.rt i req).ok = true) :
    (AsyncClient.main env).exit = .exited 0 ∧
    (AsyncClient.main env).st.calls.length = 100000 ∧
    (AsyncClient.main env).st.out.length = 100000 + 1 ∧
    (∀ k : Nat, k < 100000 →
      (AsyncClient.main env).st.calls[k]? =
        some { number := (k : Int) + 1, time_start := (env.clock (1 + 2 * k)).tv_nsec } ∧
      ∃ reply, AsyncClient.SayHello (env.rt k) ((k : Int) + 1) (env.clock (1 + 2 * k)).tv_nsec
          = .ok reply ∧
        (AsyncClient.main env).st.out[k]? =
          some (.sample reply.number reply.time_start (env.clock (2 + 2 * k)).tv_nsec
            (sub64 (env.clock (2 + 2 * k)).tv_nsec (env.clock (1 + 2 * k)).tv_nsec))) ∧
    (AsyncClient.main env).st.out[100000]? =
      some (.total (sub64 (env.clock 200001).tv_sec (env.clock 0).tv_sec)) ∧
    (LogLine.total (sub64 (env.clock 200001).tv_sec (env.clock 0).tv_sec)).render =
      "Total Latency: " ++ toString (sub64 (env.clock 200001).tv_sec (env.clock 0).tv_sec)
        ++ "\n" := by
  obtain ⟨h1, h2, h3, h4, h5⟩ := AsyncClient.mainWith_run env H 100000 (by norm_num)
  exact ⟨h1, h2, h3, h4, h5, rfl⟩

/-- Witness for C3: the server echoes every request at once. -/
theorem C3_main_bounded_run_witness :
    (AsyncClient.main (AsyncClient.scenarioEnv { tv_sec := 5, tv_nsec := 1500 })).exit
      = .exited 0 ∧
    (AsyncClient.main (AsyncClient.scenarioEnv { tv_sec := 5, tv_nsec := 1500 })).st.out.length
      = 100000 + 1 :=
  have h := C3_main_bounded_run (AsyncClient.scenarioEnv { tv_sec := 5, tv_nsec := 1500 })
    (fun _ _ => ⟨rfl, rfl, rfl⟩)
  ⟨h.1, h.2.2.1⟩

/-! ## Sequence numbers -/

lemma wrap32_succ (x : Int) : wrap32 (wrap32 x + 1) = wrap32 (x + 1) := by
  unfold wrap32
  omega

lemma wrap32_inj_window (i j : Nat) (hij : i < j) (hw : j < i + 2 ^ 32) :
    wrap32 ((i : Int) + 2) ≠ wrap32 ((j : Int) + 2) := by
  unfold wrap32
  have h1 : (i : Int) < j := by exact_mod_cast hij
  have h2 : (j : Int) < i + 2 ^ 32 := by exact_mod_cast hw
  omega

lemma wrap32_period (i : Nat) :
    wrap32 (((i + 2 ^ 32 : Nat) : Int) + 2) = wrap32 ((i : Int) + 2) := by
  unfold wrap32
  push_cast
  omega

namespace AsyncClient3

lemma mainVarsAfter_number (clock : Nat → timespec) (k : Nat) :
    (mainVarsAfter clock k).number = wrap32 ((k : Int) + 1) := by
  induction k with
  | zero =>
      show (1 : Int) = wrap32 (((0 : Nat) : Int) + 1)
      decide
  | succ k ih =>
      show inc32 (mainVarsAfter clock k).number = _
      rw [ih, inc32, wrap32_succ]
      push_cast
      ring_nf

lemma callArgs_number (clock : Nat → timespec) (k : Nat) :
    (callArgs clock k).number = wrap32 ((k : Int) + 2) := by
  show inc32 (mainVarsAfter clock k).number = _
  rw [mainVarsAfter_number, inc32, wrap32_succ]
  ring_nf

end AsyncClient3

namespace AsyncClient

lemma loopBody_calls (env : Env) (st : MainState) :
    (lastState (loopBody env st)).number = inc64 st.number ∧
    (lastState (loopBody env st)).calls = st.calls ++
      [{ number := inc64 st.number, time_start := (env.clock st.ticks).tv_nsec }] := by
  cases hs : SayHello (env.rt st.calls.length) (inc64 st.number) (env.clock st.ticks).tv_nsec with
  | error a => rw [loopBody_of_error env st a hs]; exact ⟨rfl, rfl⟩
  | ok reply => rw [loopBody_of_ok env st reply hs]; exact ⟨rfl, rfl⟩

lemma whileLoop_numbers (env : Env) : ∀ (m : Nat) (st : MainState),
    (st.number = (st.calls.length : Int) ∧
      st.calls.map (fun r => r.number)
        = (List.range st.calls.length).map (fun (j : Nat) => (j : Int) + 1)) →
    ((st.calls.length + m : Nat) : Int) < 2 ^ 63 →
    ((lastState (whileLoop env m st)).number
        = ((lastState (whileLoop env m st)).calls.length : Int) ∧
      (lastState (whileLoop env m st)).calls.map (fun r => r.number)
        = (List.range (lastState (whileLoop env m st)).calls.length).map
            (fun (j : Nat) => (j : Int) + 1)) := by
  intro m
  induction m with
  | zero => intro st h _; exact h
  | succ m ih =>
      intro st h hb
      obtain ⟨c1, c2⟩ := loopBody_calls env st
      have hinc : inc64 st.number = (st.calls.length : Int) + 1 := by
        rw [h.1]
        exact inc64_natCast _ (by push_cast at hb; omega)
      have hstep : ∀ st1, lastState (loopBody env st) = st1 →
          st1.number = (st1.calls.length : Int) ∧
          st1.calls.map (fun r => r.number)
            = (List.range st1.calls.length).map (fun (j : Nat) => (j : Int) + 1) := by
        intro st1 e
        rw [e] at c1 c2
        rw [c1, c2, hinc]
        refine ⟨by simp, ?_⟩
        simp only [List.map_append, List.map_cons, List.map_nil, List.length_append,
          List.length_singleton, List.range_succ, h.2]
      rw [whileLoop]
      cases hl : loopBody env st with
      | error e =>
          obtain ⟨a, st1⟩ := e
          exact hstep st1 (by rw [hl]; rfl)
      | ok st1 =>
          have h1 := hstep st1 (by rw [hl]; rfl)
          have hlen : st1.calls.length = st.calls.length + 1 := by
            rw [hl] at c2
            have hc : st1.calls = st.calls ++
                [{ number := inc64 st.number, time_start := (env.clock st.ticks).tv_nsec }] := c2
            rw [hc]; simp
          exact ih st1 h1 (by rw [hlen]; push_cast at hb ⊢; omega)

lemma mainWith_calls (m : Nat) (env : Env) :
    (mainWith m env).st.calls = (lastState (whileLoop env m MainState.init)).calls := by
  unfold mainWith
  cases whileLoop env m MainState.init with
  | error e => rfl
  | ok st => rfl

lemma whileLoop_calls_length (env : Env) : ∀ (m : Nat) (st : MainState),
    (lastState (whileLoop env m st)).calls.length ≤ st.calls.length + m := by
  intro m
  induction m with
  | zero => intro st; exact Nat.le_refl _
  | succ m ih =>
      intro st
      obtain ⟨_, c2⟩ := loopBody_calls env st
      rw [whileLoop]
      cases hl : loopBody env st with
      | error e =>
          obtain ⟨a, st1⟩ := e
          rw [hl] at c2
          have hc : st1.calls = st.calls ++
              [{ number := inc64 st.number, time_start := (env.clock st.ticks).tv_nsec }] := c2
          show st1.calls.length ≤ _
          rw [hc]; simp
      | ok st1 =>
          rw [hl] at c2
          have hc : st1.calls = st.calls ++
              [{ number := inc64 st.number, time_start := (env.clock st.ticks).tv_nsec }] := c2
          have hlen : st1.calls.length = st.calls.length + 1 := by rw [hc]; simp
          have h2 := ih st1
          simp only at h2 ⊢
          omega

end AsyncClient

/-- C9, the claim as stated fails in `greeter_async_client3.cc`: with the `int`
counter wrapping modulo 2^32, the first call of a run and the call issued 2^32
iterations later carry the same sequence number. -/
theorem C9_numbers_repeat_after_wrap :
    (0 : Nat) ≠ 2 ^ 32 ∧
    (AsyncClient3.callArgs (constClock { tv_sec := 5, tv_nsec := 1500 }) 0).number
      = (AsyncClient3.callArgs (constClock { tv_sec := 5, tv_nsec := 1500 }) (2 ^ 32)).number := by
  refine ⟨by norm_num, ?_⟩
  rw [AsyncClient3.callArgs_number, AsyncClient3.callArgs_number]
  have := wrap32_period 0
  simp only [Nat.zero_add] at this
  rw [this]

/-- C9 (amended): in `greeter_async_client.cc` the calls of one run carry pairwise
different sequence numbers, the `k`-th call (from 0) carrying `k + 1`, and there
are at most 100000 of them.  In `greeter_async_client3.cc` the `k`-th call carries
`k + 2` read as a 32-bit `int`; two different calls fewer than 2^32 issuances
apart carry different numbers, and calls exactly 2^32 issuances apart carry the
same number. -/
theorem C9_sequence_numbers (env : AsyncClient.Env) (clock : Nat → timespec) (i j : Nat)
    (hij : i < j) (hw : j < i + 2 ^ 32) :
    ((AsyncClient.main env).st.calls.map (fun r => r.number)).Nodup ∧
    (AsyncClient.main env).st.calls.map (fun r => r.number)
      = (List.range (AsyncClient.main env).st.calls.length).map (fun (k : Nat) => (k : Int) + 1) ∧
    (AsyncClient.main env).st.calls.length ≤ 100000 ∧
    (AsyncClient3.callArgs clock i).number = wrap32 ((i : Int) + 2) ∧
    (AsyncClient3.callArgs clock i).number ≠ (AsyncClient3.callArgs clock j).number ∧
    (AsyncClient3.callArgs clock (i + 2 ^ 32)).number = (AsyncClient3.callArgs clock i).number := by
  have hA := AsyncClient.whileLoop_numbers env 100000 AsyncClient.MainState.init
    ⟨rfl, rfl⟩ (by norm_num [AsyncClient.MainState.init])
  have hL := AsyncClient.whileLoop_calls_length env 100000 AsyncClient.MainState.init
  have hc : (AsyncClient.main env).st.calls
      = (AsyncClient.lastState
          (AsyncClient.whileLoop env 100000 AsyncClient.MainState.init)).calls :=
    AsyncClient.mainWith_calls 100000 env
  refine ⟨?_, ?_, ?_, AsyncClient3.callArgs_number clock i, ?_, ?_⟩
  · rw [hc, hA.2]
    refine List.Nodup.map ?_ (List.nodup_range _)
    intro a b hab
    simpa using hab
  · rw [hc]; exact hA.2
  · rw [hc]; simpa [AsyncClient.MainState.init] using hL
  · rw [AsyncClient3.callArgs_number, AsyncClient3.callArgs_number]
    exact wrap32_inj_window i j hij hw
  · rw [AsyncClient3.callArgs_number, AsyncClient3.callArgs_number]
    exact wrap32_period i

/-- Witness for C9: the first two calls of a run. -/
theorem C9_sequence_numbers_witness :
    (AsyncClient3.callArgs (constClock { tv_sec := 5, tv_nsec := 1500 }) 0).number
      ≠ (AsyncClient3.callArgs (constClock { tv_sec := 5, tv_nsec := 1500 }) 1).number :=
  (C9_sequence_numbers (AsyncClient.scenarioEnv { tv_sec := 5, tv_nsec := 1500 })
    (constClock { tv_sec := 5, tv_nsec := 1500 }) 0 1 (by decide) (by norm_num)).2.2.2.2.1

/-! ## Tags of outstanding calls -/

namespace AsyncClient3

lemma SayHello_keeps_tags (a : Nat) (number tt : Int) (s s' : State)
    (h : SayHello a number tt s = some s')
    (hinv : s.pending.Nodup ∧ ∀ t ∈ s.pending, (s.heap t).isSome = true) :
    a ∉ s.pending ∧ s'.pending = s.pending ++ [a] ∧
    (s'.pending.Nodup ∧ ∀ t ∈ s'.pending, (s'.heap t).isSome = true) := by
  obtain ⟨hf, e⟩ := SayHello_eq_some a number tt s s' h
  have hna : a ∉ s.pending := by
    intro ha
    have := hinv.2 a ha
    rw [hf] at this
    cases this
  subst e
  refine ⟨hna, rfl, ?_, ?_⟩
  · exact List.Nodup.append hinv.1 (List.nodup_singleton a) (by simpa using hna)
  · intro t ht
    simp only [List.mem_append, List.mem_singleton] at ht
    by_cases hta : t = a
    · subst hta; simp
    · simp only [Function.update_noteq hta]
      exact hinv.2 t (ht.resolve_right hta)

lemma complete_keeps_tags (clock : Nat → timespec) (tag : Nat) (ok : Bool) (reply : HelloReply)
    (status_ok : Bool) (s s' : State) (hp : tag ∈ s.pending)
    (h : loopBody clock tag ok { deliver tag reply status_ok s with pulls := s.pulls + 1 }
      = .continue s')
    (hinv : s.pending.Nodup ∧ ∀ t ∈ s.pending, (s.heap t).isSome = true) :
    s'.pending = s.pending.erase tag ∧ tag ∉ s'.pending ∧
    s'.pending.length + 1 = s.pending.length ∧
    (s'.pending.Nodup ∧ ∀ t ∈ s'.pending, (s'.heap t).isSome = true) := by
  have hl := hinv.2 tag hp
  have hs' : s' = afterSuccess clock tag reply s ∨ s' = afterFailure tag reply s := by
    cases ok with
    | false => simp [loopBody] at h
    | true =>
        cases status_ok with
        | true =>
            rw [step_success clock tag reply s hl] at h
            injection h with h
            exact Or.inl h.symm
        | false =>
            rw [step_failure clock tag reply s hl] at h
            injection h with h
            exact Or.inr h.symm
  have hpend : s'.pending = s.pending.erase tag := by
    rcases hs' with e | e <;> rw [e] <;> rfl
  have hheap : ∀ t, t ≠ tag → s'.heap t = s.heap t := by
    intro t ht
    rcases hs' with e | e <;> rw [e]
    · exact afterSuccess_heap_other clock tag reply s t ht
    · exact afterFailure_heap_other tag reply s t ht
  refine ⟨hpend, ?_, ?_, ?_, ?_⟩
  · rw [hpend]
    exact fun hmem => ((List.Nodup.mem_erase_iff hinv.1).1 hmem).1 rfl
  · rw [hpend, List.length_erase_of_mem hp]
    have : 0 < s.pending.length := List.length_pos_of_mem hp
    omega
  · rw [hpend]
    exact hinv.1.erase tag
  · intro t ht
    rw [hpend] at ht
    have ht' := (List.Nodup.mem_erase_iff hinv.1).1 ht
    rw [hheap t ht'.1]
    exact hinv.2 t ht'.2

lemma reachable_tags (clock : Nat → timespec) (s : State) (hr : Reachable clock s) :
    s.pending.Nodup ∧ ∀ t ∈ s.pending, (s.heap t).isSome = true := by
  induction hr with
  | init => exact ⟨List.nodup_nil, fun t ht => by cases ht⟩
  | step s s' _ hstep ih =>
      cases hstep with
      | issue a number tt _ _ h => exact (SayHello_keeps_tags a number tt s s' h ih).2.2
      | complete tag ok reply status_ok _ _ hp h =>
          exact (complete_keeps_tags clock tag ok reply status_ok s s' hp h ih).2.2.2

lemma issueAll_tags : ∀ (calls : List (Nat × Int × Int)) (s s' : State),
    issueAll calls s = some s' →
    (s.pending.Nodup ∧ ∀ t ∈ s.pending, (s.heap t).isSome = true) →
    s'.pending = s.pending ++ calls.map (fun c => c.1) ∧
    (s'.pending.Nodup ∧ ∀ t ∈ s'.pending, (s'.heap t).isSome = true) := by
  intro calls
  induction calls with
  | nil =>
      intro s s' h hinv
      simp only [issueAll, Option.some.injEq] at h
      subst h
      exact ⟨by simp, hinv⟩
  | cons c rest ih =>
      intro s s' h hinv
      obtain ⟨a, number, tt⟩ := c
      simp only [issueAll] at h
      cases hs : SayHello a number tt s with
      | none => simp [hs] at h
      | some s1 =>
          simp only [hs] at h
          obtain ⟨-, e1, hinv1⟩ := SayHello_keeps_tags a number tt s s1 hs hinv
          obtain ⟨e2, hinv2⟩ := ih s1 s' h hinv1
          exact ⟨by rw [e2, e1]; simp, hinv2⟩

end AsyncClient3

/-- C8: in every state reachable by issue and complete steps of
`greeter_async_client3.cc`, the outstanding tags are pairwise distinct and each is
the address of a live call record.  A further `SayHello` registers a tag that no
outstanding call has; `N` calls issued back to back add `N` tags and all
outstanding tags stay pairwise distinct; a completion removes its tag, which is
then no longer outstanding, so each outstanding call completes once. -/
theorem C8_outstanding_tags_distinct (clock : Nat → timespec) (s : AsyncClient3.State)
    (hr : AsyncClient3.Reachable clock s) :
    s.pending.Nodup ∧
    (∀ t ∈ s.pending, (s.heap t).isSome = true) ∧
    (∀ (a : Nat) (number tt : Int) (s' : AsyncClient3.State),
      AsyncClient3.SayHello a number tt s = some s' →
      a ∉ s.pending ∧ s'.pending = s.pending ++ [a] ∧ s'.pending.Nodup) ∧
    (∀ (calls : List (Nat × Int × Int)) (s' : AsyncClient3.State),
      AsyncClient3.issueAll calls s = some s' →
      s'.pending = s.pending ++ calls.map (fun c => c.1) ∧ s'.pending.Nodup ∧
      (calls.map (fun c => c.1)).Nodup ∧
      s'.pending.length = s.pending.length + calls.length) ∧
    (∀ (tag : Nat) (ok : Bool) (reply : HelloReply) (status_ok : Bool)
        (s' : AsyncClient3.State),
      tag ∈ s.pending →
      AsyncClient3.loopBody clock tag ok
        { AsyncClient3.deliver tag reply status_ok s with pulls := s.pulls + 1 }
        = .continue s' →
      s'.pending = s.pending.erase tag ∧ tag ∉ s'.pending ∧
      s'.pending.length + 1 = s.pending.length ∧ s'.pending.Nodup) := by
  have hinv := AsyncClient3.reachable_tags clock s hr
  refine ⟨hinv.1, hinv.2, ?_, ?_, ?_⟩
  · intro a number tt s' h
    obtain ⟨h1, h2, h3, -⟩ := AsyncClient3.SayHello_keeps_tags a number tt s s' h hinv
    exact ⟨h1, h2, h3⟩
  · intro calls s' h
    obtain ⟨h1, h2, -⟩ := AsyncClient3.issueAll_tags calls s s' h hinv
    refine ⟨h1, h2, ?_, by rw [h1]; simp⟩
    rw [h1] at h2
    exact (List.nodup_append.1 h2).2.1
  · intro tag ok reply status_ok s' hp h
    obtain ⟨h1, h2, h3, h4, -⟩ :=
      AsyncClient3.complete_keeps_tags clock tag ok reply status_ok s s' hp h hinv
    exact ⟨h1, h2, h3, h4⟩

/-- Witness for C8: three calls issued back to back are outstanding at once,
at addresses 100, 101 and 102; the state is reached by three issue steps, its
three tags are pairwise distinct, and completing the second call leaves the
other two outstanding. -/
theorem C8_outstanding_tags_distinct_witness :
    AsyncClient3.Reachable (constClock { tv_sec := 5, tv_nsec := 1500 })
      AsyncClient3.threeIssued ∧
    AsyncClient3.threeIssued.pending = [100, 101, 102] ∧
    AsyncClient3.threeIssued.pending.Nodup ∧
    (AsyncClient3.afterSuccess (constClock { tv_sec := 5, tv_nsec := 1500 }) 101
      { number := 2, time_start := 1001, error := "" } AsyncClient3.threeIssued).pending
      = [100, 102] ∧
    (101 : Nat) ∉ (AsyncClient3.afterSuccess (constClock { tv_sec := 5, tv_nsec := 1500 }) 101
      { number := 2, time_start := 1001, error := "" } AsyncClient3.threeIssued).pending :=
  have h1 : AsyncClient3.Reachable (constClock { tv_sec := 5, tv_nsec := 1500 })
      AsyncClient3.oneIssued :=
    AsyncClient3.Reachable.step _ _ AsyncClient3.Reachable.init
      (AsyncClient3.Step.issue 100 1 1000 _ _
        (by simp [AsyncClient3.SayHello, AsyncClient3.State.init, AsyncClient3.oneIssued]))
  have h2 : AsyncClient3.Reachable (constClock { tv_sec := 5, tv_nsec := 1500 })
      AsyncClient3.twoIssued :=
    AsyncClient3.Reachable.step _ _ h1
      (AsyncClient3.Step.issue 101 2 1001 _ _
        (by simp [AsyncClient3.SayHello, AsyncClient3.oneIssued, AsyncClient3.twoIssued,
              Function.update]))
  have h3 : AsyncClient3.Reachable (constClock { tv_sec := 5, tv_nsec := 1500 })
      AsyncClient3.threeIssued :=
    AsyncClient3.Reachable.step _ _ h2
      (AsyncClient3.Step.issue 102 3 1002 _ _
        (by simp [AsyncClient3.SayHello, AsyncClient3.oneIssued, AsyncClient3.twoIssued,
              AsyncClient3.threeIssued, Function.update]))
  have hc := (C8_outstanding_tags_distinct (constClock { tv_sec := 5, tv_nsec := 1500 })
      AsyncClient3.threeIssued h3).2.2.2.2 101 true
      { number := 2, time_start := 1001, error := "" } true
      (AsyncClient3.afterSuccess (constClock { tv_sec := 5, tv_nsec := 1500 }) 101
        { number := 2, time_start := 1001, error := "" } AsyncClient3.threeIssued)
      (by decide)
      (AsyncClient3.step_success _ 101 _ AsyncClient3.threeIssued
        (by simp [AsyncClient3.threeIssued, AsyncClient3.twoIssued, AsyncClient3.oneIssued,
              Function.update]))
  ⟨h3, rfl,
    (C8_outstanding_tags_distinct (constClock { tv_sec := 5, tv_nsec := 1500 })
      AsyncClient3.threeIssued h3).1,
    by rw [hc.1]; decide, hc.2.1⟩

/-! ## The drain loop of `greeter_async_client3.cc` -/

/-- C4: in `greeter_async_client3.cc`, for every finite sequence of completions
pulled with `ok = true` (their tags distinct addresses of live call records), the
drain loop appends exactly the lines `samples`: one line for each successful
completion, carrying that reply's number and start time, in the order pulled,
and no line for a failed completion.  Two calls issued as first and second and
completed with success in the reverse order give two lines, the second call's
line first. -/
theorem C4_drain_logs_in_completion_order (clock : Nat → timespec)
    (evs : List (Nat × HelloReply × Bool)) (s : AsyncClient3.State)
    (hnd : (evs.map (fun e => e.1)).Nodup)
    (hlive : ∀ e ∈ evs, (s.heap e.1).isSome = true) :
    (AsyncClient3.AsyncCompleteRpc clock (evs.map AsyncClient3.completion) s).1 = .blocked ∧
    (AsyncClient3.AsyncCompleteRpc clock (evs.map AsyncClient3.completion) s).2.log
      = s.log ++ AsyncClient3.samples clock s.ticks evs ∧
    (∀ rest, (AsyncClient3.AsyncCompleteRpc clock
        (evs.map AsyncClient3.completion ++ .closed :: rest) s).2.log
      = s.log ++ AsyncClient3.samples clock s.ticks evs) ∧
    (AsyncClient3.samples clock s.ticks evs).length = (evs.filter (fun e => e.2.2)).length ∧
    (AsyncClient3.samples clock s.ticks evs).map
        (fun l => match l with
          | .sample n ts _ _ => (n, ts)
          | .total _ => (0, 0))
      = (evs.filter (fun e => e.2.2)).map (fun e => (e.2.1.number, e.2.1.time_start)) ∧
    (∀ (a1 a2 : Nat) (n1 n2 t1 t2 : Int) (s0 : AsyncClient3.State),
      AsyncClient3.issueAll [(a1, n1, t1), (a2, n2, t2)] AsyncClient3.State.init = some s0 →
      (AsyncClient3.AsyncCompleteRpc clock
        [AsyncClient3.completion (a2, { number := n2, time_start := t2, error := "" }, true),
         AsyncClient3.completion (a1, { number := n1, time_start := t1, error := "" }, true),
         .closed] s0).2.log
      = [.sample n2 t2 (clock 0).tv_nsec (sub64 (clock 0).tv_nsec t2),
         .sample n1 t1 (clock 1).tv_nsec (sub64 (clock 1).tv_nsec t1)]) := by
  obtain ⟨s', h1, h2, -⟩ := AsyncClient3.AsyncCompleteRpc_run clock evs s hnd hlive
  have hb := h1 []
  rw [List.append_nil] at hb
  refine ⟨by rw [hb]; rfl, by rw [hb]; exact h2, ?_, AsyncClient3.samples_length_le clock evs _,
    AsyncClient3.samples_fields clock evs _, ?_⟩
  · intro rest
    rw [h1]
    exact h2
  · intro a1 a2 n1 n2 t1 t2 s0 hi
    simp only [AsyncClient3.issueAll] at hi
    cases hs1 : AsyncClient3.SayHello a1 n1 t1 AsyncClient3.State.init with
    | none => simp [hs1] at hi
    | some s1 =>
        simp only [hs1] at hi
        cases hs2 : AsyncClient3.SayHello a2 n2 t2 s1 with
        | none => simp [hs2] at hi
        | some s2 =>
            simp only [hs2, Option.some.injEq] at hi
            subst hi
            obtain ⟨-, e1⟩ := AsyncClient3.SayHello_eq_some _ _ _ _ _ hs1
            obtain ⟨f2, e2⟩ := AsyncClient3.SayHello_eq_some _ _ _ _ _ hs2
            have hne : a2 ≠ a1 := by
              intro h
              rw [e1, h] at f2
              simp at f2
            have ha1 : (s2.heap a1).isSome = true := by
              rw [e2, e1]; simp [Function.update_noteq hne.symm]
            have ha2 : (s2.heap a2).isSome = true := by
              rw [e2]; simp
            obtain ⟨s3, g1, g2, -⟩ := AsyncClient3.AsyncCompleteRpc_run clock
              [(a2, { number := n2, time_start := t2, error := "" }, true),
               (a1, { number := n1, time_start := t1, error := "" }, true)] s2
              (by simp [hne])
              (by
                intro e he
                simp only [List.mem_cons, List.mem_singleton, List.not_mem_nil, or_false] at he
                rcases he with rfl | rfl
                · exact ha2
                · exact ha1)
            have g := g1 [.closed]
            simp only [List.map_cons, List.map_nil, List.cons_append, List.nil_append] at g
            rw [g]
            simp only [AsyncClient3.AsyncCompleteRpc]
            rw [g2, e2, e1]
            simp [AsyncClient3.samples, AsyncClient3.State.init]

/-- Witness for C4: three outstanding calls; the second completes first with
success, the third fails, the first completes last with success.  The log gets
the second call's line, then the first call's line, and nothing for the failure. -/
theorem C4_drain_logs_in_completion_order_witness :
    (AsyncClient3.AsyncCompleteRpc
        (stepClock 0 { tv_sec := 5, tv_nsec := 1500 } { tv_sec := 5, tv_nsec := 1600 })
        (AsyncClient3.shuffled.map AsyncClient3.completion) AsyncClient3.threeIssued).2.log
      = AsyncClient3.threeIssued.log ++ AsyncClient3.samples
          (stepClock 0 { tv_sec := 5, tv_nsec := 1500 } { tv_sec := 5, tv_nsec := 1600 })
          AsyncClient3.threeIssued.ticks AsyncClient3.shuffled ∧
    AsyncClient3.threeIssued.log ++ AsyncClient3.samples
        (stepClock 0 { tv_sec := 5, tv_nsec := 1500 } { tv_sec := 5, tv_nsec := 1600 })
        AsyncClient3.threeIssued.ticks AsyncClient3.shuffled
      = [.sample 2 1001 1500 499, .sample 1 1000 1600 600] ∧
    AsyncClient3.threeIssued.sent
      = [{ number := 1, time_start := 1000 }, { number := 2, time_start := 1001 },
         { number := 3, time_start := 1002 }] :=
  ⟨(C4_drain_logs_in_completion_order
      (stepClock 0 { tv_sec := 5, tv_nsec := 1500 } { tv_sec := 5, tv_nsec := 1600 })
      AsyncClient3.shuffled AsyncClient3.threeIssued
      (by decide)
      (by
        intro e he
        simp only [AsyncClient3.shuffled, List.mem_cons, List.mem_singleton,
          List.not_mem_nil, or_false] at he
        rcases he with rfl | rfl | rfl <;>
          simp [AsyncClient3.threeIssued, AsyncClient3.twoIssued, AsyncClient3.oneIssued,
            Function.update])).2.1,
    by decide, rfl⟩

/-- C5, the code leaks the record of a successful call: after the drain loop has
processed the successful completion of the call at address 100 and has returned
on `Closed`, the record at 100 is still live; only a failed completion frees its
record. -/
theorem C5_success_record_not_released :
    (AsyncClient3.AsyncCompleteRpc (constClock { tv_sec := 5, tv_nsec := 1500 })
      [.event 100 true { number := 1, time_start := 1000, error := "" } true, .closed]
      AsyncClient3.oneIssued).1 = .returned ∧
    (AsyncClient3.AsyncCompleteRpc (constClock { tv_sec := 5, tv_nsec := 1500 })
      [.event 100 true { number := 1, time_start := 1000, error := "" } true, .closed]
      AsyncClient3.oneIssued).2.heap 100
      = some { reply := { number := 1, time_start := 1000, error := "" }, status_ok := true } ∧
    (AsyncClient3.AsyncCompleteRpc (constClock { tv_sec := 5, tv_nsec := 1500 })
      [.event 100 true { number := 1, time_start := 1000, error := "" } false, .closed]
      AsyncClient3.oneIssued).2.heap 100 = none := by
  refine ⟨?_, ?_, ?_⟩ <;>
    simp [AsyncClient3.AsyncCompleteRpc, AsyncClient3.loopBody, AsyncClient3.deliver,
      AsyncClient3.oneIssued]

/-- C7: in `greeter_async_client3.cc`, when the queue reports `n` completions with
`ok = true` (their tags distinct addresses of live call records) and then
`Closed`, `AsyncCompleteRpc` returns; it has called `Next` exactly `n + 1` times,
has processed exactly those `n` completions, and whatever the queue would report
after `Closed` is never pulled. -/
theorem C7_drain_returns_on_closed (clock : Nat → timespec)
    (evs : List (Nat × HelloReply × Bool)) (s : AsyncClient3.State)
    (rest : List AsyncClient3.QueueResult)
    (hnd : (evs.map (fun e => e.1)).Nodup)
    (hlive : ∀ e ∈ evs, (s.heap e.1).isSome = true) :
    (AsyncClient3.AsyncCompleteRpc clock
      (evs.map AsyncClient3.completion ++ .closed :: rest) s).1 = .returned ∧
    (AsyncClient3.AsyncCompleteRpc clock
      (evs.map AsyncClient3.completion ++ .closed :: rest) s).2.pulls
        = s.pulls + evs.length + 1 ∧
    (AsyncClient3.AsyncCompleteRpc clock
      (evs.map AsyncClient3.completion ++ .closed :: rest) s).2.log
        = s.log ++ AsyncClient3.samples clock s.ticks evs ∧
    (AsyncClient3.AsyncCompleteRpc clock
      (evs.map AsyncClient3.completion ++ .closed :: rest) s).2.pending
        = s.pending.diff (evs.map (fun e => e.1)) ∧
    AsyncClient3.AsyncCompleteRpc clock (evs.map AsyncClient3.completion ++ .closed :: rest) s
      = AsyncClient3.AsyncCompleteRpc clock (evs.map AsyncClient3.completion ++ [.closed]) s := by
  obtain ⟨s', h1, h2, h3, h4, -⟩ := AsyncClient3.AsyncCompleteRpc_run clock evs s hnd hlive
  have hc : ∀ r, AsyncClient3.AsyncCompleteRpc clock (.closed :: r) s'
      = (.returned, { s' with pulls := s'.pulls + 1 }) := fun _ => rfl
  rw [h1, h1, hc, hc]
  exact ⟨rfl, by simp [h3], h2, h4, rfl⟩

/-- Witness for C7: one completion, then `Closed`, then a completion never pulled. -/
theorem C7_drain_returns_on_closed_witness :
    (AsyncClient3.AsyncCompleteRpc (constClock { tv_sec := 5, tv_nsec := 1500 })
      ([(100, { number := 1, time_start := 1000, error := "" }, true)].map
        AsyncClient3.completion ++
        .closed :: [.event 100 false { number := 0, time_start := 0, error := "" } false])
      AsyncClient3.oneIssued).2.pulls = 0 + 1 + 1 :=
  (C7_drain_returns_on_closed (constClock { tv_sec := 5, tv_nsec := 1500 })
    [(100, { number := 1, time_start := 1000, error := "" }, true)] AsyncClient3.oneIssued
    [.event 100 false { number := 0, time_start := 0, error := "" } false]
    (by decide) (by simp [AsyncClient3.oneIssued])).2.1

/-! ## The assertion on `ok` -/

/-- C6: a completion pulled with `ok = false` aborts the process before the
status is looked at.  In `greeter_async_client.cc`, `SayHello` returns no reply
(it stops at an assertion, the one on `ok` when `Next` returned true with tag 1),
the iteration of `main` that made the call writes no line and the loop goes no
further.  In `greeter_async_client3.cc` the drain loop aborts at that
completion, whatever the record and status are: no line is written, no clock
reading is taken and nothing after it is pulled.  With `ok = true` the assertion
on `ok` never fires, whatever the status. -/
theorem C6_ok_false_aborts (rt : HelloRequest → AsyncClient.Completion) (number tt : Int)
    (hA : (rt { number := number, time_start := tt }).ok = false)
    (clock : Nat → timespec) (tag : Nat) (reply : HelloReply) (status_ok : Bool)
    (rest : List AsyncClient3.QueueResult) (s : AsyncClient3.State) :
    (∃ a, AsyncClient.SayHello rt number tt = .error a) ∧
    ((rt { number := number, time_start := tt }).next_ret = true →
      (rt { number := number, time_start := tt }).got_tag = 1 →
      AsyncClient.SayHello rt number tt = .error .ok) ∧
    (∀ (env : AsyncClient.Env) (st : AsyncClient.MainState),
      env.rt st.calls.length = rt → inc64 st.number = number →
      (env.clock st.ticks).tv_nsec = tt →
      ∃ a st', AsyncClient.loopBody env st = .error (a, st') ∧ st'.out = st.out ∧
        ∀ m, AsyncClient.whileLoop env (m + 1) st = .error (a, st')) ∧
    ((AsyncClient3.AsyncCompleteRpc clock (.event tag false reply status_ok :: rest) s).1
        = .aborted ∧
      (AsyncClient3.AsyncCompleteRpc clock (.event tag false reply status_ok :: rest) s).2.log
        = s.log ∧
      (AsyncClient3.AsyncCompleteRpc clock (.event tag false reply status_ok :: rest) s).2.ticks
        = s.ticks ∧
      (AsyncClient3.AsyncCompleteRpc clock (.event tag false reply status_ok :: rest) s).2.pulls
        = s.pulls + 1) ∧
    (∀ (rt' : HelloRequest → AsyncClient.Completion) (n t : Int),
      (rt' { number := n, time_start := t }).ok = true →
      AsyncClient.SayHello rt' n t ≠ .error .ok) ∧
    (∀ (tag' : Nat) (s0 s1 : AsyncClient3.State),
      AsyncClient3.loopBody clock tag' true s0 ≠ .aborted s1) := by
  have hsay : ∃ a, AsyncClient.SayHello rt number tt = .error a := by
    unfold AsyncClient.SayHello
    by_cases h1 : (rt { number := number, time_start := tt }).next_ret = true
    · by_cases h2 : (rt { number := number, time_start := tt }).got_tag = 1
      · exact ⟨.ok, by simp [h1, h2, hA]⟩
      · exact ⟨.got_tag, by simp [h1, h2]⟩
    · exact ⟨.cq_next, by simp [h1]⟩
  refine ⟨hsay, ?_, ?_, ?_, ?_, ?_⟩
  · intro h1 h2
    simp [AsyncClient.SayHello, h1, h2, hA]
  · intro env st e1 e2 e3
    obtain ⟨a, ha⟩ := hsay
    have hb := AsyncClient.loopBody_of_error env st a (by rw [e1, e2, e3]; exact ha)
    refine ⟨a, _, hb, rfl, ?_⟩
    intro m
    rw [AsyncClient.whileLoop, hb]
  · simp [AsyncClient3.AsyncCompleteRpc, AsyncClient3.loopBody, AsyncClient3.deliver]
  · intro rt' n t h
    unfold AsyncClient.SayHello
    by_cases h1 : (rt' { number := n, time_start := t }).next_ret = true
    · by_cases h2 : (rt' { number := n, time_start := t }).got_tag = 1
      · by_cases h3 : (rt' { number := n, time_start := t }).status_ok = true <;>
          simp [h1, h2, h, h3]
      · simp [h1, h2]
    · simp [h1]
  · intro tag' s0 s1
    unfold AsyncClient3.loopBody
    cases hh : s0.heap tag' with
    | none => simp
    | some call =>
        by_cases h3 : call.status_ok = true <;> simp [h3]

/-- Witness for C6: the first call of a run is answered with `ok = false`. -/
theorem C6_ok_false_aborts_witness :
    AsyncClient.SayHello (fun _ => { AsyncClient.echoRt true
        { number := 1, time_start := 1000 } with ok := false }) 1 1000 = .error .ok :=
  (C6_ok_false_aborts (fun _ => { AsyncClient.echoRt true
      { number := 1, time_start := 1000 } with ok := false }) 1 1000 rfl
    (constClock { tv_sec := 5, tv_nsec := 1500 }) 100
    { number := 1, time_start := 1000, error := "" } true [] AsyncClient3.oneIssued).2.1 rfl rfl

end Greeter
